import Mathlib

/-!
Verification of the resume/vacancy matching engine.

The engine lives in two Python services:
* `src/server/app.py` — the Flask matcher: `extract_json_from_text`,
  `extract_structured_data`, `calculate_score`, `score_to_ten`,
  `build_matches`, `generate_explanation`, and the `/api/analyze` handler
  `analyze_vacancy`.
* `src/backend/app.py` — the HTTP gateway whose `do_POST` handler for
  `/api/analyze` performs session and minimum-length validation before
  calling the LLM.

Numbers are modelled with `ℚ` (Python floats behave exactly on the small
decimal values the engine manipulates), Python's banker's rounding
(`round`, round half to even) with `pyRound`, and Python sets of
normalized skill strings with duplicate-free lists built by `pyset`.
Python's `str.lower` is modelled characterwise over the scripts this
program's documents use — ASCII, the Latin-1 supplement and the full
Cyrillic block — and `str.strip` removes exactly Python's whitespace
code points.
-/

/-- Python's builtin `round` to an integer: round half to even. -/
def pyRound (q : ℚ) : ℤ :=
  if q - ⌊q⌋ < 1/2 then ⌊q⌋
  else if 1/2 < q - ⌊q⌋ then ⌊q⌋ + 1
  else if ⌊q⌋ % 2 = 0 then ⌊q⌋ else ⌊q⌋ + 1

/-- Python's `round(x, 2)`, used by `calculate_score` for `score_details`. -/
def pyRound2 (q : ℚ) : ℚ := (pyRound (q * 100) : ℚ) / 100

/-- Python's `str.lower`, characterwise, over the scripts this program's
documents use: ASCII `A`-`Z`, the Latin-1 supplement `À`-`Þ` (without the
multiplication sign), and the full Cyrillic block U+0400-U+052F — the
basic range `А`-`Я` and `Ѐ`-`Џ` (which includes `Ё`) plus the extended
cased pairs and the palochka U+04C0 → U+04CF. Characters outside these
ranges are left unchanged; Python's few context-sensitive or multi-char
mappings (the Greek final sigma, U+0130, U+1E9E) are not characterwise
and lie outside this table. -/
def pyToLower (c : Char) : Char :=
  if 0x41 ≤ c.toNat ∧ c.toNat ≤ 0x5A then Char.ofNat (c.toNat + 0x20)
  else if 0xC0 ≤ c.toNat ∧ c.toNat ≤ 0xDE ∧ c.toNat ≠ 0xD7 then
    Char.ofNat (c.toNat + 0x20)
  else if 0x410 ≤ c.toNat ∧ c.toNat ≤ 0x42F then Char.ofNat (c.toNat + 0x20)
  else if 0x400 ≤ c.toNat ∧ c.toNat ≤ 0x40F then Char.ofNat (c.toNat + 0x50)
  else if 0x460 ≤ c.toNat ∧ c.toNat ≤ 0x481 ∧ c.toNat % 2 = 0 then
    Char.ofNat (c.toNat + 1)
  else if 0x48A ≤ c.toNat ∧ c.toNat ≤ 0x4BF ∧ c.toNat % 2 = 0 then
    Char.ofNat (c.toNat + 1)
  else if c.toNat = 0x4C0 then Char.ofNat 0x4CF
  else if 0x4C1 ≤ c.toNat ∧ c.toNat ≤ 0x4CE ∧ c.toNat % 2 = 1 then
    Char.ofNat (c.toNat + 1)
  else if 0x4D0 ≤ c.toNat ∧ c.toNat ≤ 0x52F ∧ c.toNat % 2 = 0 then
    Char.ofNat (c.toNat + 1)
  else c

/-- The code points Python's `str.strip` removes (`str.isspace`). -/
def pyWsCodes : List Nat :=
  [9, 10, 11, 12, 13, 28, 29, 30, 31, 32, 0x85, 0xA0, 0x1680,
   0x2000, 0x2001, 0x2002, 0x2003, 0x2004, 0x2005, 0x2006, 0x2007, 0x2008,
   0x2009, 0x200A, 0x2028, 0x2029, 0x202F, 0x205F, 0x3000]

/-- Whitespace removed by Python's `str.strip`. -/
def isStripWs (c : Char) : Bool := pyWsCodes.contains c.toNat

/-- Remove leading and trailing whitespace from a character list. -/
def trimChars (l : List Char) : List Char :=
  ((l.dropWhile isStripWs).reverse.dropWhile isStripWs).reverse

/-- Python's `s.strip()` on a string. -/
def pyStrip (s : String) : String := String.mk (trimChars s.data)

/-- Skill normalization used throughout the engine: `s.lower().strip()`. -/
def pyNormalize (s : String) : String := String.mk (trimChars (s.data.map pyToLower))

/-- Python's `set(s.lower().strip() for s in skills)`, represented as a
duplicate-free list of the normalized strings (every downstream observation
is order independent: cardinality, membership, and sorted output). -/
def pyset (skills : List String) : List String := (skills.map pyNormalize).dedup

/-- `s'` differs from `s` only in letter case or in leading/trailing
whitespace: each string splits into whitespace padding around a core, and
the two cores lower-case characterwise (via the case folding the program
applies) to the same character sequence. The relation is reflexive, so a
single-skill replacement instantiates a pointwise hypothesis over a whole
skill list. -/
def isCaseWsVariant (s' s : String) : Prop :=
  ∃ w1 t' w2 w3 t w4 : List Char,
    (∀ c ∈ w1, isStripWs c = true) ∧ (∀ c ∈ w2, isStripWs c = true) ∧
    (∀ c ∈ w3, isStripWs c = true) ∧ (∀ c ∈ w4, isStripWs c = true) ∧
    s'.data = w1 ++ t' ++ w2 ∧ s.data = w3 ++ t ++ w4 ∧
    t'.map pyToLower = t.map pyToLower

/-- Code-point comparison of character lists, as Python compares strings. -/
def charListLe : List Char → List Char → Bool
  | [], _ => true
  | _ :: _, [] => false
  | a :: as, b :: bs =>
    if a.toNat < b.toNat then true
    else if b.toNat < a.toNat then false
    else charListLe as bs

/-- Python's `<=` on strings (lexicographic on code points). -/
def strLe (a b : String) : Bool := charListLe a.data b.data

/-- Insert a string into an ascending list, keeping it ascending. -/
def insertSorted (s : String) : List String → List String
  | [] => [s]
  | t :: ts => if strLe s t then s :: t :: ts else t :: insertSorted s ts

/-- Python's `sorted` on a collection of strings (ascending). -/
def sortStrings (l : List String) : List String := l.foldr insertSorted []

/-- Python's `', '.join(...)`. -/
def joinComma : List String → String
  | [] => ""
  | [s] => s
  | s :: rest => s ++ ", " ++ joinComma rest

/-- Python's `f'{x:.1f}'` formatting of a nonnegative magnitude already
rounded to tenths (`n` is the number of tenths). -/
def fmt1Mag (n : ℤ) : String := toString (n / 10) ++ "." ++ toString (n % 10)

/-- Python's `f'{x:.1f}'`: one decimal place, half-even rounding, with the
sign printed separately from the rounded magnitude. -/
def fmt1 (q : ℚ) : String :=
  if q < 0 then "-" ++ fmt1Mag (pyRound (-q * 10)) else fmt1Mag (pyRound (q * 10))

/-- A structured fact record extracted from one document, after the
conversions `calculate_score` applies (`float(... or 0)` on the experience
and string skill lists). -/
structure FactRecord where
  education : String
  experience_years : ℚ
  hard_skills : List String
  soft_skills : List String

/-- The per-category weight configuration (`weights` dict). -/
structure Weights where
  education_match : ℚ
  experience_match : ℚ
  hard_skills_match : ℚ
  soft_skills_match : ℚ

/-- `DEFAULT_WEIGHTS` from `src/server/app.py`. -/
def DEFAULT_WEIGHTS : Weights := ⟨25, 25, 40, 10⟩

/-- The `report['score_details']` mapping, in insertion order. -/
structure ScoreDetails where
  education : ℚ
  experience : ℚ
  hard_skills : ℚ
  soft_skills : ℚ

/-- The `report` dictionary built by `calculate_score`. -/
structure ScoreReport where
  missing_required : List String
  partial_match : List String
  strengths : List String
  score_details : ScoreDetails

/-- The value returned by `calculate_score`. -/
structure ScoreResult where
  score : ℤ
  report : ScoreReport

/-- One entry of the `matches` list built by `build_matches`. -/
structure MatchItem where
  item : String
  status : String
  comment : String

/-- The education block of `calculate_score`: full weight iff both education
strings are truthy (non-empty). -/
def eduScore (job resume : FactRecord) (w : Weights) : ℚ :=
  if job.education ≠ "" ∧ resume.education ≠ "" then w.education_match else 0

/-- The experience block of `calculate_score`: full weight when the resume
meets the requirement, proportional when it is positive but short, else 0. -/
def expScore (job resume : FactRecord) (w : Weights) : ℚ :=
  if 0 < job.experience_years then
    if job.experience_years ≤ resume.experience_years then w.experience_match
    else if 0 < resume.experience_years then
      resume.experience_years / job.experience_years * w.experience_match
    else 0
  else 0

/-- The strength entry the experience block appends when the requirement
is met (`f'Опыт: {resume_exp:.1f} лет (требуется {job_exp:.1f})'`). -/
def expStrengths (job resume : FactRecord) : List String :=
  if 0 < job.experience_years ∧ job.experience_years ≤ resume.experience_years then
    ["Опыт: " ++ fmt1 resume.experience_years ++ " лет (требуется " ++
      fmt1 job.experience_years ++ ")"]
  else []

/-- The entry the experience block appends to `partial_match` when
`0 < resume_exp < job_exp`. -/
def expPartialEntries (job resume : FactRecord) : List String :=
  if 0 < job.experience_years ∧ ¬ job.experience_years ≤ resume.experience_years ∧
      0 < resume.experience_years then
    ["Опыт: " ++ fmt1 resume.experience_years ++ " лет (требуется " ++
      fmt1 job.experience_years ++ ")"]
  else []

/-- The entry the experience block appends to `missing_required` when the
job states a requirement and the resume experience is not positive. -/
def expMissing (job resume : FactRecord) : List String :=
  if 0 < job.experience_years ∧ ¬ job.experience_years ≤ resume.experience_years ∧
      ¬ 0 < resume.experience_years then
    ["Опыт " ++ fmt1 job.experience_years ++ " лет"]
  else []

/-- Set intersection `job_skills & resume_skills` on normalized skill sets
(both arguments are `pyset` images). -/
def matchedSkills (js rs : List String) : List String :=
  js.filter fun s => decide (s ∈ rs)

/-- Set difference `job_skills - resume_skills` on normalized skill sets. -/
def missingSkills (js rs : List String) : List String :=
  js.filter fun s => decide (s ∉ rs)

/-- The hard-skill block of `calculate_score`:
`len(matched) * (weights['hard_skills_match'] / max(1, len(job_skills)))`,
and 0 when the job states no hard skills. -/
def hsScore (job resume : FactRecord) (w : Weights) : ℚ :=
  if pyset job.hard_skills = [] then 0
  else
    ((matchedSkills (pyset job.hard_skills) (pyset resume.hard_skills)).length : ℚ) *
      (w.hard_skills_match / ((max 1 (pyset job.hard_skills).length : ℕ) : ℚ))

/-- Strength entries of the hard-skill block: every matched skill,
alphabetically sorted, prefixed with `'Навык: '`. -/
def hsStrengths (job resume : FactRecord) : List String :=
  (sortStrings (matchedSkills (pyset job.hard_skills) (pyset resume.hard_skills))).map
    fun s => "Навык: " ++ s

/-- Missing-required entries of the hard-skill block: every job skill
absent from the resume, alphabetically sorted, prefixed with `'Навык: '`. -/
def hsMissing (job resume : FactRecord) : List String :=
  (sortStrings (missingSkills (pyset job.hard_skills) (pyset resume.hard_skills))).map
    fun s => "Навык: " ++ s

/-- The soft-skill block of `calculate_score`, symmetric to the hard-skill
score but without missing-required entries. -/
def ssScore (job resume : FactRecord) (w : Weights) : ℚ :=
  if pyset job.soft_skills = [] then 0
  else
    ((matchedSkills (pyset job.soft_skills) (pyset resume.soft_skills)).length : ℚ) *
      (w.soft_skills_match / ((max 1 (pyset job.soft_skills).length : ℕ) : ℚ))

/-- Strength entries of the soft-skill block (matched soft skills only;
soft-skill gaps are deliberately not logged). -/
def ssStrengths (job resume : FactRecord) : List String :=
  (sortStrings (matchedSkills (pyset job.soft_skills) (pyset resume.soft_skills))).map
    fun s => "Soft skill: " ++ s

/-- `calculate_score(job_data, resume_data, weights)` from
`src/server/app.py`: accumulates the four category scores, builds the
report lists in category order, and clamps `min(100, round(total_score))`. -/
def calculate_score (job resume : FactRecord) (w : Weights) : ScoreResult :=
  let edu_score := eduScore job resume w
  let exp_score := expScore job resume w
  let hs_score := hsScore job resume w
  let ss_score := ssScore job resume w
  let total_score := edu_score + exp_score + hs_score + ss_score
  ⟨min 100 (pyRound total_score),
    ⟨(if 0 < edu_score then []
        else if job.education ≠ "" then ["Образование не указано в резюме"] else []) ++
      expMissing job resume ++ hsMissing job resume,
     expPartialEntries job resume,
     (if 0 < edu_score then ["Есть соответствие по образованию"] else []) ++
      expStrengths job resume ++ hsStrengths job resume ++ ssStrengths job resume,
     ⟨edu_score,
      pyRound2 exp_score,
      if pyset job.hard_skills = [] then 0 else pyRound2 hs_score,
      pyRound2 ss_score⟩⟩⟩

/-- `score_to_ten(score_100)` from `src/server/app.py`. -/
def score_to_ten (score_100 : ℤ) : ℤ :=
  if score_100 ≤ 0 then 1
  else max 1 (min 10 (pyRound ((score_100 : ℚ) / 10)))

/-- The education status computed by `build_matches`. -/
def eduStatus (job resume : FactRecord) : String :=
  let s := if job.education ≠ "" ∧ resume.education ≠ "" then "match" else "gap"
  if job.education = "" then "partial" else s

/-- The experience status computed by `build_matches`. -/
def expStatus (job resume : FactRecord) : String :=
  if job.experience_years ≤ 0 then "partial"
  else if job.experience_years ≤ resume.experience_years then "match"
  else if 0 < resume.experience_years then "partial"
  else "gap"

/-- The status derivation `build_matches` applies to a skill category:
`partial` without a requirement, then `match` / `partial` / `gap` from the
missing and matched sets. -/
def skillStatus (js rs : List String) : String :=
  if js = [] then "partial"
  else
    if missingSkills js rs = [] ∧ ¬ matchedSkills js rs = [] then "match"
    else if ¬ matchedSkills js rs = [] then "partial"
    else "gap"

/-- The hard-skill status computed by `build_matches`. -/
def hsStatus (job resume : FactRecord) : String :=
  skillStatus (pyset job.hard_skills) (pyset resume.hard_skills)

/-- The soft-skill status computed by `build_matches`. -/
def ssStatus (job resume : FactRecord) : String :=
  skillStatus (pyset job.soft_skills) (pyset resume.soft_skills)

/-- `build_matches(job_data, resume_data, report)` from
`src/server/app.py`: the four UI match items in fixed category order. -/
def build_matches (job resume : FactRecord) : List MatchItem :=
  [⟨"Образование", eduStatus job resume,
     if job.education ≠ "" then job.education else "не указано"⟩,
   ⟨"Опыт", expStatus job resume,
     if 0 < job.experience_years then
       fmt1 resume.experience_years ++ " лет (требуется " ++
         fmt1 job.experience_years ++ ")"
     else "не указано"⟩,
   ⟨"Hard skills", hsStatus job resume,
     if ¬ pyset job.hard_skills = [] then joinComma (sortStrings (pyset job.hard_skills))
     else "не указано"⟩,
   ⟨"Soft skills", ssStatus job resume,
     if ¬ pyset job.soft_skills = [] then joinComma (sortStrings (pyset job.soft_skills))
     else "не указано"⟩]

/-- JSON values as Python's `json.loads` produces them (numbers as exact
rationals; the engine never inspects float precision of parsed numbers). -/
inductive Json where
  | null : Json
  | bool (b : Bool) : Json
  | num (q : ℚ) : Json
  | str (s : String) : Json
  | arr (elems : List Json) : Json
  | obj (members : List (String × Json)) : Json

/-- Python dict insert `d[k] = v`: replace the value in place when the key
exists, append otherwise. -/
def objInsert : List (String × Json) → String → Json → List (String × Json)
  | [], k, v => [(k, v)]
  | (k0, v0) :: rest, k, v =>
    if k0 = k then (k, v) :: rest else (k0, v0) :: objInsert rest k v

/-- Python dict lookup with a default (`d.get(k, dflt)` / `setdefault`). -/
def dictGet : List (String × Json) → String → Json → Json
  | [], _, dflt => dflt
  | (k0, v) :: rest, k, dflt => if k0 = k then v else dictGet rest k dflt

/-- Python dict lookup returning whether the key is present. -/
def dictFind : List (String × Json) → String → Option Json
  | [], _ => none
  | (k0, v) :: rest, k => if k0 = k then some v else dictFind rest k

/-- Python truthiness of a JSON value (`if explanation.get('company'):`). -/
def Json.truthy : Json → Bool
  | .null => false
  | .bool b => b
  | .num q => decide (¬ q = 0)
  | .str s => decide (¬ s = "")
  | .arr [] => false
  | .arr (_ :: _) => true
  | .obj [] => false
  | .obj (_ :: _) => true

/-- JSON whitespace skipped between tokens. -/
def isJsonWs (c : Char) : Bool := c == ' ' || c == '\t' || c == '\n' || c == '\r'

/-- Skip JSON whitespace. -/
def skipWs : List Char → List Char
  | [] => []
  | c :: cs => if isJsonWs c then skipWs cs else c :: cs

/-- Value of one hex digit in a `\u` escape. -/
def hexVal (c : Char) : Option Nat :=
  if '0' ≤ c ∧ c ≤ '9' then some (c.toNat - 48)
  else if 'a' ≤ c ∧ c ≤ 'f' then some (c.toNat - 87)
  else if 'A' ≤ c ∧ c ≤ 'F' then some (c.toNat - 55)
  else none

/-- Body of a JSON string after the opening quote: standard escapes, `\u`
escapes decoded to the named code point, raw control characters refused
(`json.loads` is strict). -/
def parseStringBody : Nat → List Char → List Char → Option (String × List Char)
  | 0, _, _ => none
  | _ + 1, [], _ => none
  | fuel + 1, c :: cs, acc =>
    if c = '"' then some (String.mk acc.reverse, cs)
    else if c = '\\' then
      match cs with
      | [] => none
      | e :: cs2 =>
        if e = '"' then parseStringBody fuel cs2 ('"' :: acc)
        else if e = '\\' then parseStringBody fuel cs2 ('\\' :: acc)
        else if e = '/' then parseStringBody fuel cs2 ('/' :: acc)
        else if e = 'b' then parseStringBody fuel cs2 ('\x08' :: acc)
        else if e = 'f' then parseStringBody fuel cs2 ('\x0c' :: acc)
        else if e = 'n' then parseStringBody fuel cs2 ('\n' :: acc)
        else if e = 'r' then parseStringBody fuel cs2 ('\r' :: acc)
        else if e = 't' then parseStringBody fuel cs2 ('\t' :: acc)
        else if e = 'u' then
          match cs2 with
          | h1 :: h2 :: h3 :: h4 :: cs3 =>
            match hexVal h1, hexVal h2, hexVal h3, hexVal h4 with
            | some a, some b, some c4, some d =>
              parseStringBody fuel cs3
                (Char.ofNat (a * 4096 + b * 256 + c4 * 16 + d) :: acc)
            | _, _, _, _ => none
          | _ => none
        else none
    else if c.toNat < 32 then none
    else parseStringBody fuel cs (c :: acc)

/-- Read a run of decimal digits, returning value, digit count and rest. -/
def parseDigitsAux : List Char → Nat → Nat → Nat × Nat × List Char
  | [], v, n => (v, n, [])
  | c :: cs, v, n =>
    if '0' ≤ c ∧ c ≤ '9' then parseDigitsAux cs (v * 10 + (c.toNat - 48)) (n + 1)
    else (v, n, c :: cs)

/-- Assemble a parsed JSON number from its parts. -/
def mkJsonNum (neg : Bool) (iv fv fcnt : Nat) (esign : Bool) (ev : Nat) : ℚ :=
  let mag : ℚ := (iv : ℚ) + (fv : ℚ) / (10 : ℚ) ^ fcnt
  let scaled : ℚ := if esign then mag / (10 : ℚ) ^ ev else mag * (10 : ℚ) ^ ev
  if neg then -scaled else scaled

/-- Optional exponent digits of a JSON number. -/
def parseExpDigits (neg : Bool) (iv fv fcnt : Nat) (cs : List Char) :
    Option (ℚ × List Char) :=
  let p : Bool × List Char :=
    match cs with
    | '+' :: r => (false, r)
    | '-' :: r => (true, r)
    | _ => (false, cs)
  match parseDigitsAux p.2 0 0 with
  | (ev, ecnt, cs2) =>
    if ecnt = 0 then none else some (mkJsonNum neg iv fv fcnt p.1 ev, cs2)

/-- Optional exponent part of a JSON number. -/
def parseExpPart (neg : Bool) (iv fv fcnt : Nat) (cs : List Char) :
    Option (ℚ × List Char) :=
  match cs with
  | 'e' :: cs1 => parseExpDigits neg iv fv fcnt cs1
  | 'E' :: cs1 => parseExpDigits neg iv fv fcnt cs1
  | _ => some (mkJsonNum neg iv fv fcnt false 0, cs)

/-- A JSON number: optional sign, integer part without leading zeros,
optional fraction, optional exponent. -/
def parseNumber (cs0 : List Char) : Option (ℚ × List Char) :=
  let p : Bool × List Char :=
    match cs0 with
    | '-' :: rest => (true, rest)
    | _ => (false, cs0)
  match p.2 with
  | [] => none
  | c :: _ =>
    if ¬ ('0' ≤ c ∧ c ≤ '9') then none
    else
      match parseDigitsAux p.2 0 0 with
      | (iv, icnt, cs2) =>
        if c = '0' ∧ 1 < icnt then none
        else
          match cs2 with
          | '.' :: cs2a =>
            match parseDigitsAux cs2a 0 0 with
            | (fv, fcnt, cs3) =>
              if fcnt = 0 then none else parseExpPart p.1 iv fv fcnt cs3
          | _ => parseExpPart p.1 iv 0 0 cs2

/-- Parser mode: a value, the members of an object, or the items of an
array (accumulators carry what has been parsed so far). -/
inductive PMode where
  | value : PMode
  | members (acc : List (String × Json)) : PMode
  | items (acc : List Json) : PMode

/-- Recursive descent over JSON text, fuel-bounded (`json.loads` on the
standard JSON grammar). -/
def parseCore : Nat → PMode → List Char → Option (Json × List Char)
  | 0, _, _ => none
  | fuel + 1, PMode.value, cs =>
    match skipWs cs with
    | [] => none
    | c :: rest =>
      if c = '{' then parseCore fuel (PMode.members []) rest
      else if c = '[' then parseCore fuel (PMode.items []) rest
      else if c = '"' then
        match parseStringBody (rest.length + 1) rest [] with
        | some (s, r) => some (Json.str s, r)
        | none => none
      else if c = 't' then
        match rest with
        | 'r' :: 'u' :: 'e' :: r => some (Json.bool true, r)
        | _ => none
      else if c = 'f' then
        match rest with
        | 'a' :: 'l' :: 's' :: 'e' :: r => some (Json.bool false, r)
        | _ => none
      else if c = 'n' then
        match rest with
        | 'u' :: 'l' :: 'l' :: r => some (Json.null, r)
        | _ => none
      else
        match parseNumber (c :: rest) with
        | some (q, r) => some (Json.num q, r)
        | none => none
  | fuel + 1, PMode.members acc, cs =>
    match skipWs cs with
    | [] => none
    | c :: rest =>
      if c = '}' then
        if acc.isEmpty then some (Json.obj [], rest) else none
      else if c = '"' then
        match parseStringBody (rest.length + 1) rest [] with
        | none => none
        | some (k, r1) =>
          match skipWs r1 with
          | ':' :: r2 =>
            match parseCore fuel PMode.value r2 with
            | none => none
            | some (v, r3) =>
              match skipWs r3 with
              | ',' :: r4 => parseCore fuel (PMode.members (objInsert acc k v)) r4
              | '}' :: r4 => some (Json.obj (objInsert acc k v), r4)
              | _ => none
          | _ => none
      else none
  | fuel + 1, PMode.items acc, cs =>
    match skipWs cs with
    | [] => none
    | c :: rest =>
      if c = ']' then
        if acc.isEmpty then some (Json.arr [], rest) else none
      else
        match parseCore fuel PMode.value (c :: rest) with
        | none => none
        | some (v, r1) =>
          match skipWs r1 with
          | ',' :: r2 => parseCore fuel (PMode.items (acc ++ [v])) r2
          | ']' :: r2 => some (Json.arr (acc ++ [v]), r2)
          | _ => none

/-- `json.loads` on a character list: one value, nothing but whitespace
after it. -/
def jsonParse (cs : List Char) : Option Json :=
  match parseCore (2 * cs.length + 2) PMode.value cs with
  | some (v, rest) => if skipWs rest = [] then some v else none
  | none => none

/-- Index of the first occurrence of a character. -/
def firstIdxOf (ch : Char) : List Char → Option Nat
  | [] => none
  | c :: cs => if c = ch then some 0 else (firstIdxOf ch cs).map (· + 1)

/-- Index of the last occurrence of a character. -/
def lastIdxOf (ch : Char) (cs : List Char) : Option Nat :=
  (firstIdxOf ch cs.reverse).map (fun i => cs.length - 1 - i)

/-- `extract_json_from_text(text)` from `src/server/app.py`: the greedy
regex match of an opening brace up to the last closing brace
(the first JSON object found anywhere in the reply), fed to `json.loads`;
`none` models the raised `ValueError` / `JSONDecodeError`. -/
def extract_json_from_text (text : String) : Option Json :=
  match firstIdxOf '{' text.data, lastIdxOf '}' text.data with
  | some i, some j =>
    if i < j then jsonParse ((text.data.drop i).take (j - i + 1)) else none
  | _, _ => none

/-- The dictionary `extract_structured_data` returns: the four keys the
engine reads, still as raw JSON values (the code performs no type
validation on them). -/
structure RawRecord where
  education : Json
  experience_years : Json
  hard_skills : Json
  soft_skills : Json

/-- The all-defaults record returned on parse failure. -/
def defaultRawRecord : RawRecord :=
  ⟨Json.str "", Json.num 0, Json.arr [], Json.arr []⟩

/-- `extract_structured_data(text, doc_type)` from `src/server/app.py`,
as a function of the LLM reply text: on parse failure every field is
defaulted; on success `setdefault` fills only the missing keys. -/
def extract_structured_data (reply : String) : RawRecord :=
  match extract_json_from_text reply with
  | some (Json.obj kvs) =>
    ⟨dictGet kvs "education" (Json.str ""),
     dictGet kvs "experience_years" (Json.num 0),
     dictGet kvs "hard_skills" (Json.arr []),
     dictGet kvs "soft_skills" (Json.arr [])⟩
  | _ => defaultRawRecord

/-- `generate_explanation(...)` from `src/server/app.py`, as a function of
the LLM reply text: the parsed JSON object, or an empty mapping when
parsing fails. -/
def generate_explanation (reply : String) : List (String × Json) :=
  match extract_json_from_text reply with
  | some (Json.obj kvs) => kvs
  | _ => []

/-- The fallback verdict substituted when the narrative lacks one. -/
def FALLBACK_VERDICT : String := "Готово. Посмотри совпадения и рекомендации."

/-- The result dictionary `analyze_vacancy` returns to the caller
(`score`, `score_raw`, `verdict`, `matches` always present; the narrative
blocks only when truthy). -/
structure AnalyzeResult where
  score : ℤ
  score_raw : ℤ
  verdict : Json
  «matches» : List MatchItem
  company : Option Json
  details : Option Json
  pros_cons : Option Json
  recommendation : Option Json

/-- An optional block of the result: present iff the key is present and
its value truthy (`if explanation.get('company'): ...`). -/
def optField (kvs : List (String × Json)) (k : String) : Option Json :=
  match dictFind kvs k with
  | some v => if v.truthy then some v else none
  | none => none

/-- Steps 2-4 of `analyze_vacancy` (`src/server/app.py` lines 451-483):
score via the algorithm, narrative via the LLM reply, matches for the UI,
and assembly of the result dictionary. The extraction stage has already
produced the fact records; the narrative LLM reply is the remaining
external input. -/
def analyze_finalize (job resume : FactRecord) (w : Weights)
    (explanationReply : String) : AnalyzeResult :=
  let score_result := calculate_score job resume w
  let score_100 := score_result.score
  let score_10 := score_to_ten score_100
  let explanation := generate_explanation explanationReply
  let match_items := build_matches job resume
  ⟨score_10, score_100,
   dictGet explanation "verdict" (Json.str FALLBACK_VERDICT),
   match_items,
   optField explanation "company",
   optField explanation "details",
   optField explanation "pros_cons",
   optField explanation "recommendation"⟩

/-- Outcome of the `/api/analyze` branch of `do_POST` in
`src/backend/app.py`, up to the first LLM call: `callGigachat` marks
reaching `call_gigachat(vacancy, resume)` (line 863), the other
constructors the early returns before it. -/
inductive BackendOutcome where
  | unauthorized : BackendOutcome
  | textTooShort : BackendOutcome
  | callGigachat (vacancy resume : String) : BackendOutcome
deriving DecidableEq

/-- The validation prefix of the `/api/analyze` branch of `do_POST`
(`src/backend/app.py` lines 825-863): session check, then rejection with
the error code `text_too_short` (HTTP 400) when either stripped text is
shorter than 100 characters, before any LLM call. -/
def backend_analyze (sessionOk : Bool) (vacancy_raw resume_raw : String) :
    BackendOutcome :=
  if ¬ sessionOk then BackendOutcome.unauthorized
  else
    let vacancy := pyStrip vacancy_raw
    let resume := pyStrip resume_raw
    if vacancy.length < 100 ∨ resume.length < 100 then BackendOutcome.textTooShort
    else BackendOutcome.callGigachat vacancy resume

/-- Outcome of the validation prefix of `analyze_vacancy` in
`src/server/app.py` (lines 418-449): `callExtraction` marks reaching
`extract_structured_data(vacancy_text, 'вакансия')` — the first LLM
call — with the stripped texts. -/
inductive ServerOutcome where
  | unauthorized : ServerOutcome
  | missingVacancyText : ServerOutcome
  | missingProfile : ServerOutcome
  | callExtraction (vacancy resume : String) : ServerOutcome
deriving DecidableEq

/-- The validation prefix of `analyze_vacancy` in `src/server/app.py`:
auth, truthiness of `vacancy_text` and `profile`, then straight to the
extraction LLM call — the handler has no minimum-length check. -/
def server_analyze (authorized : Bool) (vacancy_text : Option String)
    (profile_present : Bool) (resume_text : Option String) : ServerOutcome :=
  if ¬ authorized then ServerOutcome.unauthorized
  else if vacancy_text.getD "" = "" then ServerOutcome.missingVacancyText
  else if ¬ profile_present then ServerOutcome.missingProfile
  else
    ServerOutcome.callExtraction (pyStrip (vacancy_text.getD ""))
      (pyStrip (resume_text.getD ""))

attribute [local semireducible] Rat.add Rat.mul Rat.inv Rat.sub Rat.ofScientific

theorem floor_le_pyRound (q : ℚ) : ⌊q⌋ ≤ pyRound q := by
  unfold pyRound
  split_ifs <;> omega

theorem pyRound_le_floor_add_one (q : ℚ) : pyRound q ≤ ⌊q⌋ + 1 := by
  unfold pyRound
  split_ifs <;> omega

theorem pyRound_nonneg {q : ℚ} (hq : 0 ≤ q) : 0 ≤ pyRound q := by
  have h0 : (0 : ℤ) ≤ ⌊q⌋ := Int.floor_nonneg.mpr hq
  exact le_trans h0 (floor_le_pyRound q)

theorem pyRound_le_pyRound {a b : ℚ} (h : a ≤ b) : pyRound a ≤ pyRound b := by
  rcases lt_or_le ⌊a⌋ ⌊b⌋ with hf | hf
  · calc pyRound a ≤ ⌊a⌋ + 1 := pyRound_le_floor_add_one a
      _ ≤ ⌊b⌋ := by omega
      _ ≤ pyRound b := floor_le_pyRound b
  · have hab : ⌊a⌋ = ⌊b⌋ := le_antisymm (Int.floor_le_floor h) hf
    have habq : ((⌊a⌋ : ℤ) : ℚ) = ((⌊b⌋ : ℤ) : ℚ) := by exact_mod_cast hab
    have hr : a - ((⌊a⌋ : ℤ) : ℚ) ≤ b - ((⌊b⌋ : ℤ) : ℚ) := by
      rw [habq]; linarith
    unfold pyRound
    split_ifs <;> first | omega | linarith

theorem eduScore_nonneg (job resume : FactRecord) (w : Weights)
    (hw : 0 ≤ w.education_match) : 0 ≤ eduScore job resume w := by
  unfold eduScore
  split_ifs <;> simp [hw]

theorem expScore_nonneg (job resume : FactRecord) (w : Weights)
    (hw : 0 ≤ w.experience_match) : 0 ≤ expScore job resume w := by
  unfold expScore
  split_ifs with h1 h2 h3
  · exact hw
  · exact mul_nonneg (div_nonneg h3.le h1.le) hw
  · exact le_refl 0
  · exact le_refl 0

theorem hsScore_nonneg (job resume : FactRecord) (w : Weights)
    (hw : 0 ≤ w.hard_skills_match) : 0 ≤ hsScore job resume w := by
  unfold hsScore
  split_ifs
  · exact le_refl 0
  · exact mul_nonneg (Nat.cast_nonneg _) (div_nonneg hw (Nat.cast_nonneg _))

theorem ssScore_nonneg (job resume : FactRecord) (w : Weights)
    (hw : 0 ≤ w.soft_skills_match) : 0 ≤ ssScore job resume w := by
  unfold ssScore
  split_ifs
  · exact le_refl 0
  · exact mul_nonneg (Nat.cast_nonneg _) (div_nonneg hw (Nat.cast_nonneg _))

/-- Claim C1: for every pair of fact records and the default weight
configuration, `calculate_score` returns an integer score in [0, 100],
and the function is deterministic: two calls on identical inputs return
an identical `ScoreResult`. -/
theorem calculate_score_in_range_and_deterministic (job resume : FactRecord) :
    0 ≤ (calculate_score job resume DEFAULT_WEIGHTS).score ∧
    (calculate_score job resume DEFAULT_WEIGHTS).score ≤ 100 ∧
    calculate_score job resume DEFAULT_WEIGHTS =
      calculate_score job resume DEFAULT_WEIGHTS := by
  refine ⟨?_, ?_, rfl⟩
  · have htotal : 0 ≤ eduScore job resume DEFAULT_WEIGHTS +
        expScore job resume DEFAULT_WEIGHTS + hsScore job resume DEFAULT_WEIGHTS +
        ssScore job resume DEFAULT_WEIGHTS := by
      have h1 := eduScore_nonneg job resume DEFAULT_WEIGHTS (by norm_num [DEFAULT_WEIGHTS])
      have h2 := expScore_nonneg job resume DEFAULT_WEIGHTS (by norm_num [DEFAULT_WEIGHTS])
      have h3 := hsScore_nonneg job resume DEFAULT_WEIGHTS (by norm_num [DEFAULT_WEIGHTS])
      have h4 := ssScore_nonneg job resume DEFAULT_WEIGHTS (by norm_num [DEFAULT_WEIGHTS])
      linarith
    exact le_min (by norm_num) (pyRound_nonneg htotal)
  · exact min_le_left _ _

theorem one_le_score_to_ten (n : ℤ) : 1 ≤ score_to_ten n := by
  unfold score_to_ten
  split_ifs
  · exact le_refl 1
  · exact le_max_left 1 _

theorem pyRound_zero : pyRound 0 = 0 := by decide

/-- Claim C5: `score_to_ten` equals `max(1, min(10, round(score/10)))`,
maps every non-positive input to 1 (never 0), is monotone non-decreasing,
and sends 0 to 1 and 100 to 10. -/
theorem score_to_ten_spec (a b : ℤ) (hab : a ≤ b) :
    score_to_ten a = max 1 (min 10 (pyRound ((a : ℚ) / 10))) ∧
    score_to_ten a ≤ score_to_ten b ∧
    (a ≤ 0 → score_to_ten a = 1) ∧
    score_to_ten a ≠ 0 ∧
    score_to_ten 0 = 1 ∧
    score_to_ten 100 = 10 := by
  have hcast : ∀ x y : ℤ, x ≤ y → (x : ℚ) / 10 ≤ (y : ℚ) / 10 := by
    intro x y hxy
    have hq : (x : ℚ) ≤ (y : ℚ) := by exact_mod_cast hxy
    linarith
  have heq : ∀ n : ℤ, score_to_ten n = max 1 (min 10 (pyRound ((n : ℚ) / 10))) := by
    intro n
    unfold score_to_ten
    split_ifs with h
    · have hd : (n : ℚ) / 10 ≤ 0 / 10 := hcast n 0 h
      have hple : pyRound ((n : ℚ) / 10) ≤ 0 := by
        have := pyRound_le_pyRound (by simpa using hd)
        simpa [pyRound_zero] using this
      rw [min_eq_right (le_trans hple (by norm_num)),
        max_eq_left (le_trans hple (by norm_num))]
    · rfl
  refine ⟨heq a, ?_, ?_, ?_, by decide, by decide⟩
  · rcases le_or_lt a 0 with h | h
    · have : score_to_ten a = 1 := by unfold score_to_ten; rw [if_pos h]
      rw [this]
      exact one_le_score_to_ten b
    · rw [heq a, heq b]
      exact max_le_max (le_refl 1)
        (min_le_min (le_refl 10) (pyRound_le_pyRound (hcast a b hab)))
  · intro h
    unfold score_to_ten
    rw [if_pos h]
  · have := one_le_score_to_ten a
    omega

theorem score_to_ten_spec_witness :
    score_to_ten (-5) = 1 ∧ score_to_ten (-5) ≤ score_to_ten 45 ∧
    score_to_ten 100 = 10 := by
  have h := score_to_ten_spec (-5) 45 (by decide)
  exact ⟨h.2.2.1 (by decide), h.2.1, h.2.2.2.2.2⟩

/-- Claim C2 counterexample: the scenario's raw score is indeed 45, but
`score_to_ten(45)` is 4, not 5 — Python's `round` is half-to-even, and
`round(4.5) = 4`. -/
theorem scenario_score_to_ten_counterexample :
    (calculate_score ⟨"Bachelor", 3, ["sql", "python"], []⟩
        ⟨"", 3, ["python"], []⟩ DEFAULT_WEIGHTS).score = 45 ∧
    score_to_ten 45 = 4 ∧ ¬ score_to_ten 45 = 5 := by
  exact ⟨by decide, by decide, by decide⟩

/-- Claim C2 (amended): in the concrete scenario the per-category scores
are education 0 (with the missing-required education entry logged),
experience 25, hard skills 20, soft skills 0, the total score is 45, and
`score_to_ten(45) = 4` (Python rounds 4.5 half-to-even). -/
theorem scenario_bachelor_sql_python :
    (calculate_score ⟨"Bachelor", 3, ["sql", "python"], []⟩
        ⟨"", 3, ["python"], []⟩ DEFAULT_WEIGHTS).report.score_details.education = 0 ∧
    "Образование не указано в резюме" ∈
      (calculate_score ⟨"Bachelor", 3, ["sql", "python"], []⟩
        ⟨"", 3, ["python"], []⟩ DEFAULT_WEIGHTS).report.missing_required ∧
    (calculate_score ⟨"Bachelor", 3, ["sql", "python"], []⟩
        ⟨"", 3, ["python"], []⟩ DEFAULT_WEIGHTS).report.score_details.experience = 25 ∧
    (calculate_score ⟨"Bachelor", 3, ["sql", "python"], []⟩
        ⟨"", 3, ["python"], []⟩ DEFAULT_WEIGHTS).report.score_details.hard_skills = 20 ∧
    (calculate_score ⟨"Bachelor", 3, ["sql", "python"], []⟩
        ⟨"", 3, ["python"], []⟩ DEFAULT_WEIGHTS).report.score_details.soft_skills = 0 ∧
    (calculate_score ⟨"Bachelor", 3, ["sql", "python"], []⟩
        ⟨"", 3, ["python"], []⟩ DEFAULT_WEIGHTS).score = 45 ∧
    score_to_ten 45 = 4 := by
  refine ⟨by decide, by decide, by decide, by decide, by decide, by decide, by decide⟩

theorem insertSorted_length (s : String) (l : List String) :
    (insertSorted s l).length = l.length + 1 := by
  induction l with
  | nil => rfl
  | cons t ts ih =>
    by_cases h : strLe s t
    · simp [insertSorted, h]
    · simp [insertSorted, h, ih]

theorem sortStrings_length (l : List String) : (sortStrings l).length = l.length := by
  induction l with
  | nil => rfl
  | cons s ts ih =>
    show (insertSorted s (sortStrings ts)).length = ts.length + 1
    rw [insertSorted_length, ih]

theorem sortStrings_eq_nil_iff (l : List String) : sortStrings l = [] ↔ l = [] := by
  constructor
  · intro h
    have hl := sortStrings_length l
    rw [h] at hl
    exact List.length_eq_zero.mp hl.symm
  · intro h
    rw [h]
    rfl

theorem matchedSkills_eq_self {js rs : List String} (h : ∀ s ∈ js, s ∈ rs) :
    matchedSkills js rs = js :=
  List.filter_eq_self.mpr (fun a ha => by simpa using h a ha)

theorem matchedSkills_eq_nil {js rs : List String} (h : ∀ s ∈ js, s ∉ rs) :
    matchedSkills js rs = [] :=
  List.filter_eq_nil_iff.mpr (fun a ha => by simpa using h a ha)

theorem missingSkills_eq_nil {js rs : List String} (h : ∀ s ∈ js, s ∈ rs) :
    missingSkills js rs = [] :=
  List.filter_eq_nil_iff.mpr (fun a ha => by simpa using h a ha)

theorem missingSkills_eq_self {js rs : List String} (h : ∀ s ∈ js, s ∉ rs) :
    missingSkills js rs = js :=
  List.filter_eq_self.mpr (fun a ha => by simpa using h a ha)

theorem matchedSkills_ne_nil {js rs : List String} {a : String} (ha : a ∈ js)
    (har : a ∈ rs) : matchedSkills js rs ≠ [] := by
  intro h
  have := List.filter_eq_nil_iff.mp h a ha
  simp [har] at this

theorem missingSkills_ne_nil {js rs : List String} {a : String} (ha : a ∈ js)
    (har : a ∉ rs) : missingSkills js rs ≠ [] := by
  intro h
  have := List.filter_eq_nil_iff.mp h a ha
  simp [har] at this

theorem skillStatus_no_requirement {js rs : List String} (h : js = []) :
    skillStatus js rs = "partial" := by
  unfold skillStatus
  rw [if_pos h]

theorem skillStatus_full_match {js rs : List String} (h1 : js ≠ [])
    (h2 : ∀ s ∈ js, s ∈ rs) : skillStatus js rs = "match" := by
  unfold skillStatus
  rw [if_neg h1,
    if_pos ⟨missingSkills_eq_nil h2, by rw [matchedSkills_eq_self h2]; exact h1⟩]

theorem skillStatus_zero_overlap {js rs : List String} (h1 : js ≠ [])
    (h2 : ∀ s ∈ js, s ∉ rs) : skillStatus js rs = "gap" := by
  have hm : matchedSkills js rs = [] := matchedSkills_eq_nil h2
  unfold skillStatus
  rw [if_neg h1, if_neg (by simp [hm]), if_neg (by simp [hm])]

theorem skillStatus_partial_overlap {js rs : List String} {a b : String}
    (ha : a ∈ js) (har : a ∈ rs) (hb : b ∈ js) (hbr : b ∉ rs) :
    skillStatus js rs = "partial" := by
  have hjs : js ≠ [] := List.ne_nil_of_mem ha
  have hm : matchedSkills js rs ≠ [] := matchedSkills_ne_nil ha har
  have hmiss : missingSkills js rs ≠ [] := missingSkills_ne_nil hb hbr
  unfold skillStatus
  rw [if_neg hjs, if_neg (by simp [hmiss]), if_pos hm]

theorem skillStatus_not_match_of_missing {js rs : List String}
    (h : missingSkills js rs ≠ []) :
    skillStatus js rs ≠ "match" ∧
      (skillStatus js rs = "gap" ∨ skillStatus js rs = "partial") := by
  have hjs : js ≠ [] := by
    intro h0
    rw [h0] at h
    exact h rfl
  unfold skillStatus
  rw [if_neg hjs]
  by_cases hm : matchedSkills js rs = []
  · rw [if_neg (by simp [h]), if_neg (by simp [hm])]
    exact ⟨by decide, Or.inl rfl⟩
  · rw [if_neg (by simp [h]), if_pos hm]
    exact ⟨by decide, Or.inr rfl⟩

theorem eduStatus_cases (job resume : FactRecord) :
    (job.education = "" → eduStatus job resume = "partial") ∧
    (job.education ≠ "" → resume.education ≠ "" → eduStatus job resume = "match") ∧
    (job.education ≠ "" → resume.education = "" → eduStatus job resume = "gap") := by
  refine ⟨fun h => ?_, fun h1 h2 => ?_, fun h1 h2 => ?_⟩ <;>
    simp [eduStatus, *]

theorem expStatus_cases (job resume : FactRecord) :
    (job.experience_years ≤ 0 → expStatus job resume = "partial") ∧
    (0 < job.experience_years → job.experience_years ≤ resume.experience_years →
      expStatus job resume = "match") ∧
    (0 < job.experience_years → 0 < resume.experience_years →
      resume.experience_years < job.experience_years →
      expStatus job resume = "partial") ∧
    (0 < job.experience_years → resume.experience_years ≤ 0 →
      expStatus job resume = "gap") := by
  refine ⟨fun h => ?_, fun h1 h2 => ?_, fun h1 h2 h3 => ?_, fun h1 h2 => ?_⟩
  · simp [expStatus, h]
  · simp [expStatus, not_le.mpr h1, h2]
  · simp [expStatus, not_le.mpr h1, not_le.mpr h3, h2]
  · have hlt : resume.experience_years < job.experience_years := lt_of_le_of_lt h2 h1
    simp [expStatus, not_le.mpr h1, not_le.mpr hlt, not_lt.mpr h2]

/-- Claim C6: the Match Presenter agrees with the Score Calculator on
verdict direction — whenever `calculate_score` logs a missing-required
hard-skill entry the hard-skill status is `gap` or `partial` and never
`match`; and in each category an absent job-side requirement gives
`partial`, a full match `match`, a partial overlap `partial`, and zero
overlap with a stated requirement `gap`. -/
theorem matches_agree_with_score (job resume : FactRecord) (w : Weights) :
    ((build_matches job resume).map MatchItem.status =
      [eduStatus job resume, expStatus job resume, hsStatus job resume,
        ssStatus job resume]) ∧
    (hsMissing job resume ≠ [] →
      (∀ e ∈ hsMissing job resume,
        e ∈ (calculate_score job resume w).report.missing_required) ∧
      hsStatus job resume ≠ "match" ∧
      (hsStatus job resume = "gap" ∨ hsStatus job resume = "partial")) ∧
    ((job.education = "" → eduStatus job resume = "partial") ∧
     (job.education ≠ "" → resume.education ≠ "" →
       eduStatus job resume = "match") ∧
     (job.education ≠ "" → resume.education = "" →
       eduStatus job resume = "gap")) ∧
    ((job.experience_years ≤ 0 → expStatus job resume = "partial") ∧
     (0 < job.experience_years →
       job.experience_years ≤ resume.experience_years →
       expStatus job resume = "match") ∧
     (0 < job.experience_years → 0 < resume.experience_years →
       resume.experience_years < job.experience_years →
       expStatus job resume = "partial") ∧
     (0 < job.experience_years → resume.experience_years ≤ 0 →
       expStatus job resume = "gap")) ∧
    ((pyset job.hard_skills = [] → hsStatus job resume = "partial") ∧
     (pyset job.hard_skills ≠ [] →
       (∀ s ∈ pyset job.hard_skills, s ∈ pyset resume.hard_skills) →
       hsStatus job resume = "match") ∧
     (∀ a b : String, a ∈ pyset job.hard_skills → a ∈ pyset resume.hard_skills →
       b ∈ pyset job.hard_skills → b ∉ pyset resume.hard_skills →
       hsStatus job resume = "partial") ∧
     (pyset job.hard_skills ≠ [] →
       (∀ s ∈ pyset job.hard_skills, s ∉ pyset resume.hard_skills) →
       hsStatus job resume = "gap")) ∧
    ((pyset job.soft_skills = [] → ssStatus job resume = "partial") ∧
     (pyset job.soft_skills ≠ [] →
       (∀ s ∈ pyset job.soft_skills, s ∈ pyset resume.soft_skills) →
       ssStatus job resume = "match") ∧
     (∀ a b : String, a ∈ pyset job.soft_skills → a ∈ pyset resume.soft_skills →
       b ∈ pyset job.soft_skills → b ∉ pyset resume.soft_skills →
       ssStatus job resume = "partial") ∧
     (pyset job.soft_skills ≠ [] →
       (∀ s ∈ pyset job.soft_skills, s ∉ pyset resume.soft_skills) →
       ssStatus job resume = "gap")) := by
  refine ⟨rfl, fun h => ?_, eduStatus_cases job resume, expStatus_cases job resume,
    ⟨fun h => skillStatus_no_requirement h,
     fun h1 h2 => skillStatus_full_match h1 h2,
     fun a b ha har hb hbr => skillStatus_partial_overlap ha har hb hbr,
     fun h1 h2 => skillStatus_zero_overlap h1 h2⟩,
    ⟨fun h => skillStatus_no_requirement h,
     fun h1 h2 => skillStatus_full_match h1 h2,
     fun a b ha har hb hbr => skillStatus_partial_overlap ha har hb hbr,
     fun h1 h2 => skillStatus_zero_overlap h1 h2⟩⟩
  have hmiss : missingSkills (pyset job.hard_skills) (pyset resume.hard_skills) ≠ [] := by
    intro h0
    apply h
    unfold hsMissing
    rw [h0]
    rfl
  refine ⟨fun e he => ?_, skillStatus_not_match_of_missing hmiss⟩
  exact List.mem_append_right _ he

theorem matches_agree_with_score_witness :
    hsStatus ⟨"", 0, ["sql", "python"], []⟩ ⟨"", 0, ["python"], []⟩ = "partial" ∧
    "Навык: sql" ∈
      (calculate_score ⟨"", 0, ["sql", "python"], []⟩ ⟨"", 0, ["python"], []⟩
        DEFAULT_WEIGHTS).report.missing_required ∧
    ssStatus ⟨"", 0, [], []⟩ ⟨"", 0, [], []⟩ = "partial" := by
  have h := matches_agree_with_score ⟨"", 0, ["sql", "python"], []⟩
    ⟨"", 0, ["python"], []⟩ DEFAULT_WEIGHTS
  have h2 := matches_agree_with_score ⟨"", 0, [], []⟩ ⟨"", 0, [], []⟩ DEFAULT_WEIGHTS
  refine ⟨?_, ?_, h2.2.2.2.2.2.1 (by decide)⟩
  · exact h.2.2.2.2.1.2.2.1 "python" "sql" (by decide) (by decide) (by decide) (by decide)
  · exact (h.2.1 (by decide)).1 "Навык: sql" (by decide)

/-- Claim C7: the experience category of `calculate_score` contributes 0
with no report entry when the job states no requirement, exactly
`weights.experience_match` with a strength when the resume meets it,
`(resume/job) * weights.experience_match` with a partial-match entry when
`0 < resume < job`, and 0 with a missing-required entry when the resume
experience is 0 against a positive requirement. -/
theorem experience_category_spec (job resume : FactRecord) (w : Weights) :
    (calculate_score job resume w).report.score_details.experience =
      pyRound2 (expScore job resume w) ∧
    (calculate_score job resume w).report.partial_match =
      expPartialEntries job resume ∧
    (job.experience_years ≤ 0 →
      expScore job resume w = 0 ∧ expStrengths job resume = [] ∧
      expPartialEntries job resume = [] ∧ expMissing job resume = []) ∧
    (0 < job.experience_years →
      job.experience_years ≤ resume.experience_years →
      expScore job resume w = w.experience_match ∧
      expStrengths job resume =
        ["Опыт: " ++ fmt1 resume.experience_years ++ " лет (требуется " ++
          fmt1 job.experience_years ++ ")"]) ∧
    (0 < job.experience_years → 0 < resume.experience_years →
      resume.experience_years < job.experience_years →
      expScore job resume w =
        resume.experience_years / job.experience_years * w.experience_match ∧
      expPartialEntries job resume =
        ["Опыт: " ++ fmt1 resume.experience_years ++ " лет (требуется " ++
          fmt1 job.experience_years ++ ")"]) ∧
    (0 < job.experience_years → resume.experience_years = 0 →
      expScore job resume w = 0 ∧
      expMissing job resume = ["Опыт " ++ fmt1 job.experience_years ++ " лет"]) := by
  refine ⟨rfl, rfl, fun h => ?_, fun h1 h2 => ?_, fun h1 h2 h3 => ?_, fun h1 h2 => ?_⟩
  · have h' : ¬ 0 < job.experience_years := not_lt.mpr h
    exact ⟨by simp [expScore, h'], by simp [expStrengths, h'],
      by simp [expPartialEntries, h'], by simp [expMissing, h']⟩
  · exact ⟨by simp [expScore, h1, h2], by simp [expStrengths, h1, h2]⟩
  · have h3' : ¬ job.experience_years ≤ resume.experience_years := not_le.mpr h3
    exact ⟨by simp [expScore, h1, h2, h3'],
      by simp [expPartialEntries, h1, h2, h3']⟩
  · have hlt : ¬ job.experience_years ≤ resume.experience_years := by
      rw [h2]; exact not_le.mpr h1
    have hnr : ¬ 0 < resume.experience_years := by rw [h2]; exact lt_irrefl 0
    exact ⟨by simp [expScore, h1, hlt, hnr], by simp [expMissing, h1, hlt, hnr]⟩

theorem experience_category_spec_witness :
    expScore ⟨"", 3, [], []⟩ ⟨"", 1, [], []⟩ DEFAULT_WEIGHTS = 1 / 3 * 25 ∧
    expScore ⟨"", 3, [], []⟩ ⟨"", 5, [], []⟩ DEFAULT_WEIGHTS = 25 ∧
    expMissing ⟨"", 3, [], []⟩ ⟨"", 0, [], []⟩ = ["Опыт " ++ fmt1 3 ++ " лет"] := by
  have h1 := (experience_category_spec ⟨"", 3, [], []⟩ ⟨"", 1, [], []⟩
    DEFAULT_WEIGHTS).2.2.2.2.1 (by norm_num) (by norm_num) (by norm_num)
  have h2 := (experience_category_spec ⟨"", 3, [], []⟩ ⟨"", 5, [], []⟩
    DEFAULT_WEIGHTS).2.2.2.1 (by norm_num) (by norm_num)
  have h3 := (experience_category_spec ⟨"", 3, [], []⟩ ⟨"", 0, [], []⟩
    DEFAULT_WEIGHTS).2.2.2.2.2 (by norm_num) rfl
  exact ⟨h1.1, h2.1, h3.2⟩

/-- Claim C8: the hard-skill category of `calculate_score` contributes
exactly 0 with no entries when the job states no hard skills; otherwise it
contributes `|matched| * (weights.hard_skills_match / |job_skills|)` over
the normalized skill sets, logs each matched skill as a strength in
alphabetical order, and each job skill absent from the resume as
missing-required in alphabetical order. -/
theorem hard_skills_category_spec (job resume : FactRecord) (w : Weights) :
    (calculate_score job resume w).score =
      min 100 (pyRound (eduScore job resume w + expScore job resume w +
        hsScore job resume w + ssScore job resume w)) ∧
    (pyset job.hard_skills = [] →
      hsScore job resume w = 0 ∧ hsStrengths job resume = [] ∧
      hsMissing job resume = []) ∧
    (pyset job.hard_skills ≠ [] →
      hsScore job resume w =
        ((matchedSkills (pyset job.hard_skills) (pyset resume.hard_skills)).length : ℚ) *
          (w.hard_skills_match / ((pyset job.hard_skills).length : ℚ)) ∧
      hsStrengths job resume =
        (sortStrings (matchedSkills (pyset job.hard_skills)
          (pyset resume.hard_skills))).map (fun s => "Навык: " ++ s) ∧
      hsMissing job resume =
        (sortStrings (missingSkills (pyset job.hard_skills)
          (pyset resume.hard_skills))).map (fun s => "Навык: " ++ s)) := by
  refine ⟨rfl, fun h => ?_, fun h => ?_⟩
  · refine ⟨by simp [hsScore, h], ?_, ?_⟩
    · unfold hsStrengths
      rw [h]
      rfl
    · unfold hsMissing
      rw [h]
      rfl
  · refine ⟨?_, rfl, rfl⟩
    have hmax : max 1 (pyset job.hard_skills).length = (pyset job.hard_skills).length :=
      max_eq_right (List.length_pos.mpr h)
    unfold hsScore
    rw [if_neg h, hmax]

theorem hard_skills_category_spec_witness :
    hsScore ⟨"", 0, ["sql", "python"], []⟩ ⟨"", 0, ["python"], []⟩ DEFAULT_WEIGHTS =
      1 * (40 / 2) ∧
    hsScore ⟨"", 0, [], []⟩ ⟨"", 0, ["python"], []⟩ DEFAULT_WEIGHTS = 0 ∧
    hsMissing ⟨"", 0, ["sql", "python"], []⟩ ⟨"", 0, ["python"], []⟩ = ["Навык: sql"] := by
  have h1 := (hard_skills_category_spec ⟨"", 0, ["sql", "python"], []⟩
    ⟨"", 0, ["python"], []⟩ DEFAULT_WEIGHTS).2.2 (by decide)
  have h2 := (hard_skills_category_spec ⟨"", 0, [], []⟩ ⟨"", 0, ["python"], []⟩
    DEFAULT_WEIGHTS).2.1 (by decide)
  refine ⟨?_, h2.1, ?_⟩
  · rw [h1.1]
    decide
  · rw [h1.2.2]
    decide

theorem dictGet_eq_dictFind (kvs : List (String × Json)) (k : String) (d : Json) :
    dictGet kvs k d = (dictFind kvs k).getD d := by
  induction kvs with
  | nil => rfl
  | cons p rest ih =>
    by_cases h : p.1 = k
    · simp [dictGet, dictFind, h]
    · simp [dictGet, dictFind, h, ih]

/-- Claim C3 (amended): the structured extractor never propagates an
error; on parse failure (no JSON object found or JSON syntax error) it
returns the all-defaults record, and when the reply parses to a JSON
object each of the four keys is defaulted individually when missing while
a present key's value is passed through as-is (no type validation). -/
theorem extract_structured_data_soft_default (reply : String) :
    (extract_json_from_text reply = none →
      extract_structured_data reply = defaultRawRecord) ∧
    (∀ kvs, extract_json_from_text reply = some (Json.obj kvs) →
      (dictFind kvs "education" = none →
        (extract_structured_data reply).education = Json.str "") ∧
      (∀ v, dictFind kvs "education" = some v →
        (extract_structured_data reply).education = v) ∧
      (dictFind kvs "experience_years" = none →
        (extract_structured_data reply).experience_years = Json.num 0) ∧
      (∀ v, dictFind kvs "experience_years" = some v →
        (extract_structured_data reply).experience_years = v) ∧
      (dictFind kvs "hard_skills" = none →
        (extract_structured_data reply).hard_skills = Json.arr []) ∧
      (∀ v, dictFind kvs "hard_skills" = some v →
        (extract_structured_data reply).hard_skills = v) ∧
      (dictFind kvs "soft_skills" = none →
        (extract_structured_data reply).soft_skills = Json.arr []) ∧
      (∀ v, dictFind kvs "soft_skills" = some v →
        (extract_structured_data reply).soft_skills = v)) := by
  constructor
  · intro h
    unfold extract_structured_data
    rw [h]
  · intro kvs h
    have hrec : extract_structured_data reply =
        ⟨dictGet kvs "education" (Json.str ""),
         dictGet kvs "experience_years" (Json.num 0),
         dictGet kvs "hard_skills" (Json.arr []),
         dictGet kvs "soft_skills" (Json.arr [])⟩ := by
      unfold extract_structured_data
      rw [h]
    rw [hrec]
    refine ⟨fun hf => ?_, fun v hf => ?_, fun hf => ?_, fun v hf => ?_,
      fun hf => ?_, fun v hf => ?_, fun hf => ?_, fun v hf => ?_⟩ <;>
      simp [dictGet_eq_dictFind, hf]

theorem extract_structured_data_soft_default_witness :
    extract_structured_data "no json at all" = defaultRawRecord ∧
    (extract_structured_data "\x7b\"education\": \"MSc\"\x7d").education =
      Json.str "MSc" ∧
    (extract_structured_data "\x7b\"education\": \"MSc\"\x7d").experience_years =
      Json.num 0 := by
  have hA := (extract_structured_data_soft_default "no json at all").1 rfl
  have hB := (extract_structured_data_soft_default "\x7b\"education\": \"MSc\"\x7d").2
    [("education", Json.str "MSc")] rfl
  exact ⟨hA, hB.2.1 (Json.str "MSc") rfl, hB.2.2.1 rfl⟩

/-- Claim C3 counterexample: a reply whose JSON object carries a
wrong-typed field is not a parse failure for the code — the value is
passed through unchanged, so the record is not the all-defaults one the
claim requires for wrong field types. -/
theorem extract_wrong_type_counterexample :
    (extract_structured_data "\x7b\"education\": 5\x7d").education = Json.num 5 ∧
    (extract_structured_data "\x7b\"education\": 5\x7d").education ≠ Json.str "" ∧
    extract_structured_data "\x7b\"education\": 5\x7d" ≠ defaultRawRecord := by
  have e : (extract_structured_data "\x7b\"education\": 5\x7d").education =
      Json.num 5 := rfl
  refine ⟨e, ?_, ?_⟩
  · rw [e]
    intro hcon
    exact Json.noConfusion hcon
  · intro hrec
    have h2 : (extract_structured_data "\x7b\"education\": 5\x7d").education =
        Json.str "" := by rw [hrec]; rfl
    rw [e] at h2
    exact Json.noConfusion h2

/-- Claim C4: once the score is computed, a Narrative Generator parse
failure never prevents the final result from carrying the score, the raw
score and the four matches: `generate_explanation` returns an empty
mapping and the caller substitutes the generic fallback verdict. -/
theorem narrative_failure_preserves_score (job resume : FactRecord) (w : Weights)
    (reply : String) (h : extract_json_from_text reply = none) :
    generate_explanation reply = [] ∧
    (analyze_finalize job resume w reply).verdict = Json.str FALLBACK_VERDICT ∧
    (analyze_finalize job resume w reply).score_raw =
      (calculate_score job resume w).score ∧
    (analyze_finalize job resume w reply).score =
      score_to_ten (calculate_score job resume w).score ∧
    1 ≤ (analyze_finalize job resume w reply).score ∧
    (analyze_finalize job resume w reply).«matches» = build_matches job resume ∧
    ((analyze_finalize job resume w reply).«matches»).length = 4 := by
  have hg : generate_explanation reply = [] := by
    unfold generate_explanation
    rw [h]
  refine ⟨hg, ?_, rfl, rfl, one_le_score_to_ten _, rfl, rfl⟩
  show dictGet (generate_explanation reply) "verdict" (Json.str FALLBACK_VERDICT) = _
  rw [hg]
  rfl

theorem narrative_failure_preserves_score_witness :
    generate_explanation "llm outage" = [] ∧
    (analyze_finalize ⟨"", 0, [], []⟩ ⟨"", 0, [], []⟩ DEFAULT_WEIGHTS
      "llm outage").verdict = Json.str FALLBACK_VERDICT ∧
    1 ≤ (analyze_finalize ⟨"", 0, [], []⟩ ⟨"", 0, [], []⟩ DEFAULT_WEIGHTS
      "llm outage").score := by
  have h := narrative_failure_preserves_score ⟨"", 0, [], []⟩ ⟨"", 0, [], []⟩
    DEFAULT_WEIGHTS "llm outage" rfl
  exact ⟨h.1, h.2.1, h.2.2.2.2.1⟩

/-- Claim C9 (amended): the backend handler (`do_POST` in
`src/backend/app.py`) rejects an analyze request whose stripped vacancy or
resume text is shorter than 100 characters with the specific error code
`text_too_short`, before any LLM call; the Flask handler in
`src/server/app.py` performs no such length validation. -/
theorem backend_short_text_rejected (sessionOk : Bool) (v r : String)
    (h : (pyStrip v).length < 100 ∨ (pyStrip r).length < 100) :
    backend_analyze true v r = BackendOutcome.textTooShort ∧
    (∀ a b, backend_analyze sessionOk v r ≠ BackendOutcome.callGigachat a b) := by
  have hshort : backend_analyze true v r = BackendOutcome.textTooShort := by
    unfold backend_analyze
    rw [if_neg (by simp)]
    exact if_pos h
  refine ⟨hshort, ?_⟩
  intro a b hcon
  by_cases h1 : sessionOk = true
  · rw [h1, hshort] at hcon
    exact BackendOutcome.noConfusion hcon
  · have hu : backend_analyze sessionOk v r = BackendOutcome.unauthorized := by
      unfold backend_analyze
      rw [if_pos h1]
    rw [hu] at hcon
    exact BackendOutcome.noConfusion hcon

theorem backend_short_text_rejected_witness :
    backend_analyze true "short vacancy" "short resume" =
      BackendOutcome.textTooShort := by
  exact (backend_short_text_rejected true "short vacancy" "short resume"
    (Or.inl (by decide))).1

/-- Claim C9 counterexample: the Flask handler validates only truthiness —
an authorized request with an 18-character vacancy text and a short resume
passes its validation and reaches the extraction LLM call instead of
being rejected. -/
theorem server_no_length_check_counterexample :
    (pyStrip "vacancy too short!").length < 100 ∧
    (pyStrip "resume too short!").length < 100 ∧
    server_analyze true (some "vacancy too short!") true (some "resume too short!") =
      ServerOutcome.callExtraction (pyStrip "vacancy too short!")
        (pyStrip "resume too short!") := by
  exact ⟨by decide, by decide, by decide⟩

theorem pyToLower_of_isStripWs {c : Char} (h : isStripWs c = true) :
    pyToLower c = c := by
  have hm : c.toNat ∈ pyWsCodes := by
    simpa [isStripWs, List.contains, List.elem_iff] using h
  simp only [pyWsCodes, List.mem_cons, List.not_mem_nil, or_false] at hm
  unfold pyToLower
  split_ifs <;> first | rfl | omega

theorem map_pyToLower_ws {w : List Char} (hw : ∀ c ∈ w, isStripWs c = true) :
    w.map pyToLower = w := by
  induction w with
  | nil => rfl
  | cons c cs ih =>
    rw [List.map_cons, pyToLower_of_isStripWs (hw c (List.mem_cons_self c cs)),
      ih (fun x hx => hw x (List.mem_cons_of_mem c hx))]

theorem dropWhile_ws_append {w y : List Char}
    (hw : ∀ c ∈ w, isStripWs c = true) :
    (w ++ y).dropWhile isStripWs = y.dropWhile isStripWs := by
  induction w with
  | nil => rfl
  | cons c cs ih =>
    rw [List.cons_append, List.dropWhile_cons,
      if_pos (hw c (List.mem_cons_self c cs))]
    exact ih (fun x hx => hw x (List.mem_cons_of_mem c hx))

theorem dropWhile_reverse_append {x w : List Char}
    (hw : ∀ c ∈ w, isStripWs c = true) :
    ((x ++ w).dropWhile isStripWs).reverse.dropWhile isStripWs =
      (x.dropWhile isStripWs).reverse.dropWhile isStripWs := by
  induction x with
  | nil =>
    have h0 : w.dropWhile isStripWs = [] := by
      have h1 := dropWhile_ws_append (y := ([] : List Char)) hw
      simpa using h1
    simp only [List.nil_append, h0, List.dropWhile_nil, List.reverse_nil]
  | cons c cs ih =>
    by_cases hc : isStripWs c = true
    · rw [List.cons_append, List.dropWhile_cons, if_pos hc,
        List.dropWhile_cons, if_pos hc]
      exact ih
    · rw [List.cons_append, List.dropWhile_cons, if_neg hc,
        List.dropWhile_cons, if_neg hc]
      simp only [List.reverse_cons, List.reverse_append, List.append_assoc]
      rw [dropWhile_ws_append (fun x hx => hw x (List.mem_reverse.mp hx))]

theorem trimChars_pad {w1 x w2 : List Char}
    (hw1 : ∀ c ∈ w1, isStripWs c = true)
    (hw2 : ∀ c ∈ w2, isStripWs c = true) :
    trimChars (w1 ++ x ++ w2) = trimChars x := by
  unfold trimChars
  rw [List.append_assoc, dropWhile_ws_append hw1, dropWhile_reverse_append hw2]

theorem pyNormalize_eq_of_variant {s' s : String} (h : isCaseWsVariant s' s) :
    pyNormalize s' = pyNormalize s := by
  obtain ⟨w1, t', w2, w3, t, w4, hw1, hw2, hw3, hw4, hd', hd, hmap⟩ := h
  unfold pyNormalize
  rw [hd', hd]
  simp only [List.map_append]
  rw [map_pyToLower_ws hw1, map_pyToLower_ws hw2, map_pyToLower_ws hw3,
    map_pyToLower_ws hw4, trimChars_pad hw1 hw2, trimChars_pad hw3 hw4, hmap]

theorem isCaseWsVariant_refl (s : String) : isCaseWsVariant s s :=
  ⟨[], s.data, [], [], s.data, [],
    by simp, by simp, by simp, by simp, by simp, by simp, rfl⟩

theorem map_pyNormalize_eq_of_variants {l' l : List String}
    (h : List.Forall₂ isCaseWsVariant l' l) :
    l'.map pyNormalize = l.map pyNormalize := by
  induction h with
  | nil => rfl
  | cons hv _ ih => rw [List.map_cons, List.map_cons, pyNormalize_eq_of_variant hv, ih]

/-- Claim C10: skill comparison is normalization-insensitive — replacing
any hard- or soft-skill string in either record with a variant that
differs only in letter case or in leading/trailing whitespace leaves the
`ScoreResult` of `calculate_score` and the four statuses of
`build_matches` unchanged, because both functions lower-case and trim
every skill entry before comparing sets (`isCaseWsVariant` is reflexive,
so a single replacement instantiates the pointwise hypotheses). -/
theorem normalization_invariance (job job' resume resume' : FactRecord) (w : Weights)
    (hje : job'.education = job.education)
    (hjx : job'.experience_years = job.experience_years)
    (hjh : List.Forall₂ isCaseWsVariant job'.hard_skills job.hard_skills)
    (hjs : List.Forall₂ isCaseWsVariant job'.soft_skills job.soft_skills)
    (hre : resume'.education = resume.education)
    (hrx : resume'.experience_years = resume.experience_years)
    (hrh : List.Forall₂ isCaseWsVariant resume'.hard_skills resume.hard_skills)
    (hrs : List.Forall₂ isCaseWsVariant resume'.soft_skills resume.soft_skills) :
    calculate_score job' resume' w = calculate_score job resume w ∧
    eduStatus job' resume' = eduStatus job resume ∧
    expStatus job' resume' = expStatus job resume ∧
    hsStatus job' resume' = hsStatus job resume ∧
    ssStatus job' resume' = ssStatus job resume ∧
    build_matches job' resume' = build_matches job resume := by
  have pjh : pyset job'.hard_skills = pyset job.hard_skills := by
    unfold pyset
    rw [map_pyNormalize_eq_of_variants hjh]
  have pjs : pyset job'.soft_skills = pyset job.soft_skills := by
    unfold pyset
    rw [map_pyNormalize_eq_of_variants hjs]
  have prh : pyset resume'.hard_skills = pyset resume.hard_skills := by
    unfold pyset
    rw [map_pyNormalize_eq_of_variants hrh]
  have prs : pyset resume'.soft_skills = pyset resume.soft_skills := by
    unfold pyset
    rw [map_pyNormalize_eq_of_variants hrs]
  refine ⟨?_, ?_, ?_, ?_, ?_, ?_⟩ <;>
    simp only [calculate_score, build_matches, eduScore, expScore, hsScore, ssScore,
      expStrengths, expPartialEntries, expMissing, hsStrengths, hsMissing, ssStrengths,
      eduStatus, expStatus, hsStatus, ssStatus, skillStatus, matchedSkills,
      missingSkills, hje, hjx, hre, hrx, pjh, pjs, prh, prs]

theorem normalization_invariance_witness :
    calculate_score ⟨"", 1, ["  PyThOn "], ["Коммуникабельность"]⟩
        ⟨"", 1, ["python"], ["коммуникабельность"]⟩ DEFAULT_WEIGHTS =
      calculate_score ⟨"", 1, ["python"], ["коммуникабельность"]⟩
        ⟨"", 1, ["python"], ["коммуникабельность"]⟩ DEFAULT_WEIGHTS ∧
    hsStatus ⟨"", 1, ["  PyThOn "], ["Коммуникабельность"]⟩
        ⟨"", 1, ["python"], ["коммуникабельность"]⟩ =
      hsStatus ⟨"", 1, ["python"], ["коммуникабельность"]⟩
        ⟨"", 1, ["python"], ["коммуникабельность"]⟩ ∧
    ssStatus ⟨"", 1, ["  PyThOn "], ["Коммуникабельность"]⟩
        ⟨"", 1, ["python"], ["коммуникабельность"]⟩ =
      ssStatus ⟨"", 1, ["python"], ["коммуникабельность"]⟩
        ⟨"", 1, ["python"], ["коммуникабельность"]⟩ := by
  have hvar1 : isCaseWsVariant "  PyThOn " "python" :=
    ⟨[' ', ' '], "PyThOn".data, [' '], [], "python".data, [],
      by decide, by decide, by decide, by decide, by decide, by decide, by decide⟩
  have hvar2 : isCaseWsVariant "Коммуникабельность" "коммуникабельность" :=
    ⟨[], "Коммуникабельность".data, [], [], "коммуникабельность".data, [],
      by decide, by decide, by decide, by decide, by decide, by decide, by decide⟩
  have h := normalization_invariance
    ⟨"", 1, ["python"], ["коммуникабельность"]⟩
    ⟨"", 1, ["  PyThOn "], ["Коммуникабельность"]⟩
    ⟨"", 1, ["python"], ["коммуникабельность"]⟩
    ⟨"", 1, ["python"], ["коммуникабельность"]⟩
    DEFAULT_WEIGHTS rfl rfl
    (List.Forall₂.cons hvar1 List.Forall₂.nil)
    (List.Forall₂.cons hvar2 List.Forall₂.nil)
    rfl rfl
    (List.Forall₂.cons (isCaseWsVariant_refl "python") List.Forall₂.nil)
    (List.Forall₂.cons (isCaseWsVariant_refl "коммуникабельность") List.Forall₂.nil)
  exact ⟨h.1, h.2.2.2.1, h.2.2.2.2.1⟩
